import Mathlib

/-!
Verification of `pyscicat/dataset.py` (and its upload protocol) against its
natural-language specification.

The Python module is shallowly embedded:
* `pathlib.Path` values are plain strings; `Path.__truediv__` becomes `joinPath`.
* Python exceptions become the inductive `PyErr`; fallible operations return
  `Except PyErr _`.  A `raise X(...)` inside an `except Y as e:` block chains
  implicitly in Python; this is the `RuntimeErrorFrom` constructor.
* The local filesystem (`Path.stat`) is a function `FS : String → Option FileStat`;
  `_creation_time_str` is modelled by storing the already-formatted UTC
  modification-time string in the stat result.
* `uuid4()` and the network client are nondeterministic / external, so they are
  passed in as parameters (`uuid`, `ScicatClient`).
* The pydantic models `DataFile`, `DerivedDataset`, `OrigDatablock` live in
  `pyscicat/model.py`, which only declares data fields; their field lists are
  reconstructed from how `dataset.py` and the tests use them.
-/

/-- Python exceptions raised by the embedded code.  `RuntimeErrorFrom` is a
`RuntimeError` raised inside an `except` block, carrying the implicitly chained
original exception. -/
inductive PyErr where
  | AttributeError (msg : String)
  | AssertionError
  | FileNotFoundError (path : String)
  | KeyError (key : String)
  | ScicatCommError (msg : String)
  | NotImplementedError (msg : String)
  | RuntimeError (msg : String)
  | RuntimeErrorFrom (msg : String) (context : PyErr)
  deriving DecidableEq, Repr

/-- Render an optional string the way a Python f-string renders the value
(`None` for a missing value). -/
def optStr : Option String → String
  | none => "None"
  | some s => s

/-- `pathlib.Path.__truediv__`: an absolute right operand replaces the left
operand; `Path("")` behaves as the current directory.  The leading and
trailing slash tests are phrased over the character list. -/
def joinPath (a b : String) : String :=
  if b.data.head? = some '/' then b
  else if a = "" then b
  else if a.data.getLast? = some '/' then a ++ b
  else a ++ "/" ++ b

/-- `pathlib.Path.name` of a string path. -/
def basename (p : String) : String :=
  (p.splitOn "/").getLastD p

/-- Result of `Path.stat()` for an existing file: size in bytes and the
UTC modification time already formatted by `_creation_time_str`. -/
structure FileStat where
  size : Nat
  mtimeUtc : String
  deriving DecidableEq, Repr

/-- The local filesystem: maps a path to `stat` data when the file exists. -/
def FS : Type := String → Option FileStat

/-- `pyscicat.model.DataFile` (fields as used by `dataset.py` and the tests). -/
structure DataFile where
  path : String
  size : Nat
  time : Option String
  deriving DecidableEq, Repr

/-- Value type of one `scientificMetadata` entry (`name -> value/unit`). -/
structure MetaValue where
  value : String
  unit : String
  deriving DecidableEq, Repr

/-- A Python `dict` with string keys, preserving insertion order. -/
def Dict : Type := List (String × MetaValue)

/-- `d[k]` lookup: first entry with the key. -/
def dictGet : List (String × MetaValue) → String → Option MetaValue
  | [], _ => none
  | (k1, v1) :: rest, k => if k1 = k then some v1 else dictGet rest k

/-- `d[k] = v`: update the existing entry in place, else append. -/
def dictSet : List (String × MetaValue) → String → MetaValue → List (String × MetaValue)
  | [], k, v => [(k, v)]
  | (k1, v1) :: rest, k, v =>
    if k1 = k then (k1, v) :: rest else (k1, v1) :: dictSet rest k v

/-- `k in d`. -/
def dictHasKey : List (String × MetaValue) → String → Bool
  | [], _ => false
  | (k1, _) :: rest, k => k1 = k || dictHasKey rest k

/-- `del d[k]`: remove the entry with the key (keys of a Python dict are
unique, so removing the first occurrence removes the key). -/
def dictDel : List (String × MetaValue) → String → List (String × MetaValue)
  | [], _ => []
  | (k1, v1) :: rest, k => if k1 = k then rest else (k1, v1) :: dictDel rest k

/-- `pyscicat.model.DerivedDataset` (fields as used by `dataset.py` and the
tests; every `Optional` pydantic field defaults to `None`). -/
structure DerivedDataset where
  pid : Option String
  owner : String
  contactEmail : String
  creationTime : String
  datasetName : Option String
  sourceFolder : String
  size : Option Nat
  numberOfFiles : Option Nat
  numberOfFilesArchived : Option Nat
  type : String
  ownerGroup : String
  accessGroups : List String
  inputDatasets : List String
  usedSoftware : List String
  scientificMetadata : Option (List (String × MetaValue))
  deriving DecidableEq, Repr

/-- `pyscicat.model.OrigDatablock`. -/
structure OrigDatablock where
  id : Option String
  size : Nat
  dataFileList : List DataFile
  datasetId : String
  ownerGroup : String
  accessGroups : List String
  deriving DecidableEq, Repr

/-! ## ScientificMetadata (the MutableMapping wrapper)

`ScientificMetadata` holds only a reference to its parent model and reads and
writes the parent's `scientificMetadata` field, so its operations are modelled
as functions on that field's value (`Option Dict`). -/

/-- `ScientificMetadata._get_dict_or_empty`: `self._parent.scientificMetadata or \x7b\x7d`. -/
def smGetDictOrEmpty (p : Option (List (String × MetaValue))) : List (String × MetaValue) :=
  match p with
  | none => []
  | some d => d

/-- `ScientificMetadata.__getitem__`. -/
def smGetItem (p : Option (List (String × MetaValue))) (k : String) : Except PyErr MetaValue :=
  match dictGet (smGetDictOrEmpty p) k with
  | some v => .ok v
  | none => .error (.KeyError k)

/-- `ScientificMetadata.__setitem__`: materializes the backing field as a
one-entry dict when it is `None`, else writes through to the parent dict. -/
def smSetItem (p : Option (List (String × MetaValue))) (k : String) (v : MetaValue) :
    Option (List (String × MetaValue)) :=
  match p with
  | none => some [(k, v)]
  | some d => some (dictSet d k v)

/-- `ScientificMetadata.__delitem__`: `del self._get_dict_or_empty()[key]`.
When the backing field is `None` (or an empty dict, which is falsy), the
delete hits a fresh empty dict and raises `KeyError`, leaving the parent
unchanged; otherwise it deletes from the parent dict (KeyError if absent). -/
def smDelItem (p : Option (List (String × MetaValue))) (k : String) :
    Except PyErr (Option (List (String × MetaValue))) :=
  match p with
  | none => .error (.KeyError k)
  | some d => if dictHasKey d k then .ok (some (dictDel d k)) else .error (.KeyError k)

/-! ## File -/

/-- `pyscicat.dataset.File`. -/
structure File where
  source_path : String
  source_folder : Option String
  local_path : Option String
  model : Option DataFile
  deriving DecidableEq, Repr

/-- `File.from_local(path, relative_to)`. -/
def File.from_local (path : String) (relative_to : String) : File :=
  { source_path := joinPath relative_to (basename path)
    source_folder := none
    local_path := some path
    model := none }

/-- `File.from_scicat(model, sourceFolder)`. -/
def File.from_scicat (model : DataFile) (sourceFolder : String) : File :=
  { source_path := model.path
    source_folder := some sourceFolder
    local_path := none
    model := some model }

/-- `File.remote_access_path`: `None if self.source_folder is None else
self._source_folder / self.source_path`. -/
def File.remote_access_path (f : File) : Option String :=
  match f.source_folder with
  | none => none
  | some sf => some (joinPath sf f.source_path)

/-- `File.with_model_from_local_file`: asserts a local path is present
(`AssertionError` otherwise, the precondition failure), stats the local file
and builds the `DataFile` model from the stat result. -/
def File.with_model_from_local_file (fs : FS) (f : File) : Except PyErr File :=
  match f.local_path with
  | none => .error .AssertionError
  | some lp =>
    match fs lp with
    | none => .error (.FileNotFoundError lp)
    | some st =>
      .ok { source_path := f.source_path
            source_folder := f.source_folder
            local_path := f.local_path
            model := some { path := f.source_path, size := st.size, time := some st.mtimeUtc } }

/-! ## DatasetRENAMEME -/

/-- `pyscicat.dataset.DatasetRENAMEME`: wrapped model, file list, optional
datablock. -/
structure DatasetRENAMEME where
  model : DerivedDataset
  files : List File
  datablock : Option OrigDatablock
  deriving DecidableEq, Repr

/-- Python `list(map(g, xs))` where `g` may raise: the first exception
propagates. -/
def exceptMap (g : File → Except PyErr File) : List File → Except PyErr (List File)
  | [] => .ok []
  | x :: xs =>
    match g x with
    | .error e => .error e
    | .ok y =>
      match exceptMap g xs with
      | .error e => .error e
      | .ok ys => .ok (y :: ys)

/-- `DatasetRENAMEME.prepare_as_new`: recompute every file model from its
local copy, sum the sizes, build a fresh datablock tagged with a new dataset
id (`uuid`) and the owner/access groups, and rebuild the dataset model with
the new pid, file count, size, and the placeholder source folder.  The new
model is `DerivedDataset(**{**self.model.dict(exclude_none=True), ...})`,
i.e. the old model with the listed fields replaced. -/
def DatasetRENAMEME.prepare_as_new (self : DatasetRENAMEME) (fs : FS) (uuid : String) :
    Except PyErr DatasetRENAMEME :=
  match exceptMap (File.with_model_from_local_file fs) self.files with
  | .error e => .error e
  | .ok files =>
    let total_size := ((files.filterMap File.model).map DataFile.size).sum
    let datablock : OrigDatablock :=
      { id := none
        size := total_size
        dataFileList := files.filterMap File.model
        datasetId := uuid
        ownerGroup := self.model.ownerGroup
        accessGroups := self.model.accessGroups }
    let model : DerivedDataset :=
      { self.model with
        pid := some uuid
        numberOfFiles := some files.length
        numberOfFilesArchived := none
        size := some total_size
        sourceFolder := "<PLACEHOLDER>" }
    .ok { model := model, files := files, datablock := some datablock }

/-- Message of the `RuntimeError` for an ambiguous source folder (the rendering
of the offending set is elided). -/
def ambiguousSourceFolderMsg : String :=
  "Cannot determine a unique source folder from files, got: . " ++
  "Pass an explicit \x27source_folder\x27 argument to override."

/-- Message of the `RuntimeError` when no file has a source folder. -/
def undeterminedSourceFolderMsg : String :=
  "Cannot determine a source folder because no input files " ++
  "have a source folder set. " ++
  "Pass an explicit \x27source_folder\x27 argument to override."

/-- `pyscicat.dataset._ensure_source_folder`: with a target folder, overwrite
every file and return it; otherwise the set of distinct non-null source
folders decides (two or more: ambiguous; none: undetermined; one: use it).
The function mutates `files` in the target-folder branch, so it returns the
updated list alongside the resolved folder. -/
def ensure_source_folder (files : List File) (target_folder : Option String) :
    Except PyErr (List File × String) :=
  match target_folder with
  | some tf => .ok (files.map (fun f => { f with source_folder := some tf }), tf)
  | none =>
    let source_folders := (files.filterMap File.source_folder).dedup
    if 2 ≤ source_folders.length then .error (.RuntimeError ambiguousSourceFolderMsg)
    else if source_folders.isEmpty then .error (.RuntimeError undeterminedSourceFolderMsg)
    else .ok (files, source_folders.headI)

/-- One original-datablock JSON object as returned by
`client.get_dataset_origdatablocks`, already parsed. -/
structure DatablockJson where
  id : String
  size : Nat
  ownerGroup : String
  accessGroups : List String
  datasetId : String
  dataFileList : List DataFile
  deriving DecidableEq, Repr

/-- Message of `_get_orig_datablock` for an unsupported datablock count. -/
def origDatablockCountMsg (n : Nat) (pid : String) : String :=
  "Got " ++ toString n ++ " original datablocks for dataset " ++ pid ++
  " but only support for one is implemented."

/-- `pyscicat.dataset._get_orig_datablock`: `NotImplementedError` unless the
catalog reports exactly one datablock (the source checks `len != 1` and then
takes element 0). -/
def get_orig_datablock (pid : String) (blocks : List DatablockJson) :
    Except PyErr DatablockJson :=
  match blocks with
  | [b] => .ok b
  | _ => .error (.NotImplementedError (origDatablockCountMsg blocks.length pid))

/-! ## Wrapped attribute access (`_wrap_model` / `_make_raising_accessor`)

`@_wrap_model(DerivedDataset, "model", exclude=("numberOfFiles", "size", "type"))`
installs, for every field of the model, either a delegating property or — for
the excluded fields — a property whose getter always raises and which has no
setter (so assignment raises `AttributeError` too).  Attribute reads/writes on
the stage are modelled by name, with an untyped value universe `AttrValue`. -/

/-- Untyped value universe for wrapped attribute access. -/
inductive AttrValue where
  | vStr (s : String)
  | vOptStr (s : Option String)
  | vOptNat (n : Option Nat)
  | vListStr (l : List String)
  | vMeta (m : Option (List (String × MetaValue)))
  deriving DecidableEq, Repr

/-- The `exclude` tuple passed to `_wrap_model` for `DatasetRENAMEME`. -/
def wrapExclude : List String := ["numberOfFiles", "size", "type"]

/-- Message of the raising accessor installed by `_make_raising_accessor`. -/
def raisingAccessorMsg (field : String) : String :=
  "Attribute \x27" ++ field ++ "\x27 is not accessible"

/-- Message of the `AttributeError` the interpreter raises when assigning to a
property that has no setter. -/
def cantSetAttrMsg : String := "can\x27t set attribute"

/-- Field read on the `DerivedDataset` model, by field name. -/
def DerivedDataset.getField (m : DerivedDataset) (field : String) : Option AttrValue :=
  if field = "pid" then some (.vOptStr m.pid)
  else if field = "owner" then some (.vStr m.owner)
  else if field = "contactEmail" then some (.vStr m.contactEmail)
  else if field = "creationTime" then some (.vStr m.creationTime)
  else if field = "datasetName" then some (.vOptStr m.datasetName)
  else if field = "sourceFolder" then some (.vStr m.sourceFolder)
  else if field = "size" then some (.vOptNat m.size)
  else if field = "numberOfFiles" then some (.vOptNat m.numberOfFiles)
  else if field = "numberOfFilesArchived" then some (.vOptNat m.numberOfFilesArchived)
  else if field = "type" then some (.vStr m.type)
  else if field = "ownerGroup" then some (.vStr m.ownerGroup)
  else if field = "accessGroups" then some (.vListStr m.accessGroups)
  else if field = "inputDatasets" then some (.vListStr m.inputDatasets)
  else if field = "usedSoftware" then some (.vListStr m.usedSoftware)
  else if field = "scientificMetadata" then some (.vMeta m.scientificMetadata)
  else none

/-- Field write on the `DerivedDataset` model, by field name (`none` when the
field does not exist or the value has the wrong shape). -/
def DerivedDataset.setField (m : DerivedDataset) (field : String) (v : AttrValue) :
    Option DerivedDataset :=
  match field, v with
  | "pid", .vOptStr s => some { m with pid := s }
  | "owner", .vStr s => some { m with owner := s }
  | "datasetName", .vOptStr s => some { m with datasetName := s }
  | "sourceFolder", .vStr s => some { m with sourceFolder := s }
  | "size", .vOptNat n => some { m with size := n }
  | "numberOfFiles", .vOptNat n => some { m with numberOfFiles := n }
  | _, _ => none

/-- Attribute read `getattr(dset, field)` through the wrapped accessors. -/
def DatasetRENAMEME.getAttr (d : DatasetRENAMEME) (field : String) :
    Except PyErr AttrValue :=
  if field ∈ wrapExclude then .error (.AttributeError (raisingAccessorMsg field))
  else
    match d.model.getField field with
    | some v => .ok v
    | none => .error (.AttributeError field)

/-- Attribute write `setattr(dset, field, v)` through the wrapped accessors:
a raising accessor has no setter, so assignment raises `AttributeError`. -/
def DatasetRENAMEME.setAttr (d : DatasetRENAMEME) (field : String) (v : AttrValue) :
    Except PyErr DatasetRENAMEME :=
  if field ∈ wrapExclude then .error (.AttributeError cantSetAttrMsg)
  else
    match d.model.setField field v with
    | some m => .ok { d with model := m }
    | none => .error (.AttributeError field)

/-- `DatasetRENAMEME.from_scicat`: `model` is the parsed response of
`client.get_dataset_by_pid(pid)` (restricted to derived datasets, which is
what `DatasetRENAMEME` supports) and `blocks` the parsed response of
`client.get_dataset_origdatablocks(pid)`. -/
def DatasetRENAMEME.from_scicat (model : DerivedDataset) (pid : String)
    (blocks : List DatablockJson) : Except PyErr DatasetRENAMEME :=
  match get_orig_datablock pid blocks with
  | .error e => .error e
  | .ok dblock_json =>
    let files := dblock_json.dataFileList.map fun m => File.from_scicat m model.sourceFolder
    let dblock : OrigDatablock :=
      { id := some dblock_json.id
        size := dblock_json.size
        ownerGroup := dblock_json.ownerGroup
        accessGroups := dblock_json.accessGroups
        datasetId := dblock_json.datasetId
        dataFileList := files.filterMap File.model }
    .ok { model := model, files := files, datablock := some dblock }

/-! ## Upload (`DatasetRENAMEME.upload_new_dataset_now`) -/

/-- The file-transfer agent produced by `uploader_factory(dataset_id=...)`.
Only its reported remote base path is data; its `put`/`revert_put` calls are
recorded in the event trace of the upload. -/
structure Uploader where
  remote_upload_path : String

/-- The network client operations used by the upload: both may fail.
`datasets_create` returns the server-assigned pid. -/
structure ScicatClient where
  datasets_create : DerivedDataset → Except PyErr String
  datasets_origdatablock_create : OrigDatablock → Except PyErr Unit

/-- Trace of the externally visible calls the upload makes, in order.  The
client interface used by `dataset.py` exposes no dataset-delete call; the
`datasets_delete_call` constructor exists so that "the catalog record is not
deleted" is expressible, and no code path emits it. -/
inductive UploadEvent where
  | put (lpath : Option String) (rpath : Option String)
  | revert_put (lpath : Option String) (rpath : Option String)
  | datasets_create_call
  | datasets_origdatablock_create_call
  | datasets_delete_call (pid : String)
  deriving DecidableEq, Repr

/-- Result of `upload_new_dataset_now`: the returned value or raised
exception, the event trace, and the state of the internal `dset` object after
the call (when the stage already has a datablock, `dset is self`, so this is
the caller-visible state of the stage, mutations included). -/
structure UploadOutcome where
  result : Except PyErr DatasetRENAMEME
  events : List UploadEvent
  dset : DatasetRENAMEME
  deriving Repr

/-- Message of the error raised when creating the original datablock fails
(the f-string rendering of `exc.args` is simplified to the exception
message). -/
def manifestFailMsg (pid : Option String) (excMsg : String) : String :=
  "Failed to upload original datablocks for SciCat dataset " ++ optStr pid ++ ":\n"
  ++ excMsg
  ++ "\nThe dataset and data files were successfully uploaded "
  ++ "but are not linked with each other. Please fix the dataset manually!"

/-- `DatasetRENAMEME.upload_new_dataset_now`: prepare if no datablock exists;
point the model and every file at the remote upload path and put each file;
create the dataset record, rolling back every placed file and re-raising on
`ScicatCommError`; then attach the returned pid to the datablock and create
it, wrapping a `ScicatCommError` in a chained `RuntimeError` without any
rollback. -/
def DatasetRENAMEME.upload_new_dataset_now (self : DatasetRENAMEME) (fs : FS)
    (uuid : String) (client : ScicatClient) (uploader_factory : Option String → Uploader) :
    UploadOutcome :=
  let prepared : Except PyErr DatasetRENAMEME :=
    match self.datablock with
    | none => self.prepare_as_new fs uuid
    | some _ => .ok self
  match prepared with
  | .error e => { result := .error e, events := [], dset := self }
  | .ok dset0 =>
    let uploader := uploader_factory dset0.model.pid
    let model1 := { dset0.model with sourceFolder := uploader.remote_upload_path }
    let files1 := dset0.files.map fun f => { f with source_folder := some model1.sourceFolder }
    let dset1 : DatasetRENAMEME :=
      { model := model1, files := files1, datablock := dset0.datablock }
    let putEvents := files1.map fun f => UploadEvent.put f.local_path f.remote_access_path
    match client.datasets_create dset1.model with
    | .error (.ScicatCommError m) =>
      { result := .error (.ScicatCommError m)
        events := putEvents ++ [.datasets_create_call]
          ++ files1.map fun f => UploadEvent.revert_put f.local_path f.remote_access_path
        dset := dset1 }
    | .error e =>
      { result := .error e
        events := putEvents ++ [.datasets_create_call]
        dset := dset1 }
    | .ok dataset_id =>
      let dset2 : DatasetRENAMEME :=
        { dset1 with datablock := dset1.datablock.map fun db => { db with datasetId := dataset_id } }
      match dset2.datablock with
      | none =>
        { result := .error (.AttributeError "datablock")
          events := putEvents ++ [.datasets_create_call]
          dset := dset2 }
      | some db =>
        match client.datasets_origdatablock_create db with
        | .error (.ScicatCommError m) =>
          { result := .error (.RuntimeErrorFrom (manifestFailMsg dset2.model.pid m)
              (.ScicatCommError m))
            events := putEvents ++ [.datasets_create_call, .datasets_origdatablock_create_call]
            dset := dset2 }
        | .error e =>
          { result := .error e
            events := putEvents ++ [.datasets_create_call, .datasets_origdatablock_create_call]
            dset := dset2 }
        | .ok _ =>
          { result := .ok dset2
            events := putEvents ++ [.datasets_create_call, .datasets_origdatablock_create_call]
            dset := dset2 }

/-! ## Helper lemmas -/

lemma dictGet_eq_none_of_not_mem {d : List (String × MetaValue)} {k : String}
    (h : k ∉ d.map Prod.fst) : dictGet d k = none := by
  induction d with
  | nil => rfl
  | cons kv rest ih =>
    obtain ⟨k1, v1⟩ := kv
    simp only [List.map_cons, List.mem_cons] at h
    push_neg at h
    have hne : ¬ k1 = k := fun he => h.1 he.symm
    simp only [dictGet, if_neg hne]
    exact ih h.2

lemma dictGet_dictSet_self (d : List (String × MetaValue)) (k : String) (v : MetaValue) :
    dictGet (dictSet d k v) k = some v := by
  induction d with
  | nil => simp [dictSet, dictGet]
  | cons kv rest ih =>
    obtain ⟨k1, v1⟩ := kv
    by_cases h : k1 = k
    · subst h
      simp [dictSet, dictGet]
    · simp [dictSet, dictGet, h, ih]

lemma dictHasKey_eq_isSome (d : List (String × MetaValue)) (k : String) :
    dictHasKey d k = (dictGet d k).isSome := by
  induction d with
  | nil => rfl
  | cons kv rest ih =>
    obtain ⟨k1, v1⟩ := kv
    by_cases h : k1 = k
    · subst h
      simp [dictHasKey, dictGet]
    · simp [dictHasKey, dictGet, h, ih]

lemma mem_keys_dictSet (d : List (String × MetaValue)) (k x : String) (v : MetaValue) :
    x ∈ (dictSet d k v).map Prod.fst ↔ x ∈ d.map Prod.fst ∨ x = k := by
  induction d with
  | nil => simp [dictSet]
  | cons kv rest ih =>
    obtain ⟨k1, v1⟩ := kv
    by_cases h : k1 = k
    · subst h
      simp [dictSet]
      tauto
    · simp [dictSet, h, ih]
      tauto

lemma keys_dictSet_nodup {d : List (String × MetaValue)} {k : String} {v : MetaValue}
    (h : (d.map Prod.fst).Nodup) : ((dictSet d k v).map Prod.fst).Nodup := by
  induction d with
  | nil => simp [dictSet]
  | cons kv rest ih =>
    obtain ⟨k1, v1⟩ := kv
    simp only [List.map_cons, List.nodup_cons] at h
    by_cases he : k1 = k
    · subst he
      simpa [dictSet, List.nodup_cons] using h
    · simp only [dictSet, if_neg he, List.map_cons, List.nodup_cons]
      refine ⟨fun hm => ?_, ih h.2⟩
      rcases (mem_keys_dictSet rest k k1 v).mp hm with h1 | h1
      · exact h.1 h1
      · exact he h1

lemma dictGet_dictDel_self {d : List (String × MetaValue)} {k : String}
    (h : (d.map Prod.fst).Nodup) : dictGet (dictDel d k) k = none := by
  induction d with
  | nil => rfl
  | cons kv rest ih =>
    obtain ⟨k1, v1⟩ := kv
    simp only [List.map_cons, List.nodup_cons] at h
    by_cases he : k1 = k
    · subst he
      simp only [dictDel, if_pos rfl]
      exact dictGet_eq_none_of_not_mem h.1
    · simp only [dictDel, if_neg he, dictGet, if_neg he]
      exact ih h.2

lemma with_model_ok {fs : FS} {f : File}
    (h : (f.local_path.bind fs).isSome = true) :
    ∃ y, File.with_model_from_local_file fs f = .ok y ∧ y.model.isSome = true := by
  rcases hl : f.local_path with _ | lp
  · simp [hl] at h
  · rcases hs : fs lp with _ | st
    · simp [hl, hs] at h
    · refine ⟨{ source_path := f.source_path, source_folder := f.source_folder,
                local_path := f.local_path,
                model := some { path := f.source_path, size := st.size,
                                time := some st.mtimeUtc } }, ?_, rfl⟩
      simp [File.with_model_from_local_file, hl, hs]

lemma exceptMap_ok_of {g : File → Except PyErr File} {l : List File}
    (h : ∀ x ∈ l, ∃ y, g x = .ok y) :
    ∃ l2, exceptMap g l = .ok l2 ∧ l2.length = l.length
      ∧ ∀ y ∈ l2, ∃ x ∈ l, g x = .ok y := by
  induction l with
  | nil => exact ⟨[], rfl, rfl, by simp⟩
  | cons x xs ih =>
    obtain ⟨y, hy⟩ := h x (List.mem_cons_self x xs)
    obtain ⟨l2, hl2, hlen, hmem⟩ := ih (fun a ha => h a (List.mem_cons_of_mem x ha))
    refine ⟨y :: l2, ?_, by simp [hlen], ?_⟩
    · simp [exceptMap, hy, hl2]
    · intro z hz
      rcases List.mem_cons.mp hz with hz | hz
      · exact ⟨x, List.mem_cons_self x xs, hz ▸ hy⟩
      · obtain ⟨a, ha, hga⟩ := hmem z hz
        exact ⟨a, List.mem_cons_of_mem x ha, hga⟩

lemma exceptMap_error_of {g : File → Except PyErr File} {l : List File}
    (h : ∃ x ∈ l, ∃ e, g x = .error e) :
    ∃ e, exceptMap g l = .error e := by
  induction l with
  | nil => simp at h
  | cons x xs ih =>
    obtain ⟨a, ha, e, hae⟩ := h
    rcases List.mem_cons.mp ha with rfl | ha
    · exact ⟨e, by simp [exceptMap, hae]⟩
    · rcases hgx : g x with e1 | y
      · exact ⟨e1, by simp [exceptMap, hgx]⟩
      · obtain ⟨e2, he2⟩ := ih ⟨a, ha, e, hae⟩
        exact ⟨e2, by simp [exceptMap, hgx, he2]⟩

lemma prepare_as_new_ok_inv {s : DatasetRENAMEME} {fs : FS} {uuid : String}
    {d' : DatasetRENAMEME} (h : s.prepare_as_new fs uuid = .ok d') :
    exceptMap (File.with_model_from_local_file fs) s.files = .ok d'.files
    ∧ d'.model = { s.model with
        pid := some uuid,
        numberOfFiles := some d'.files.length,
        numberOfFilesArchived := none,
        size := some (((d'.files.filterMap File.model).map DataFile.size).sum),
        sourceFolder := "<PLACEHOLDER>" }
    ∧ d'.datablock = some
      { id := none,
        size := ((d'.files.filterMap File.model).map DataFile.size).sum,
        dataFileList := d'.files.filterMap File.model,
        datasetId := uuid,
        ownerGroup := s.model.ownerGroup,
        accessGroups := s.model.accessGroups } := by
  rcases hm : exceptMap (File.with_model_from_local_file fs) s.files with e | files
  · unfold DatasetRENAMEME.prepare_as_new at h
    rw [hm] at h
    cases h
  · unfold DatasetRENAMEME.prepare_as_new at h
    rw [hm] at h
    simp only [Except.ok.injEq] at h
    subst h
    exact ⟨rfl, rfl, rfl⟩

/-! ## Sample data used by witnesses and counterexamples -/

/-- A concrete dataset model (mirrors the test fixture `derived_dataset`). -/
def mBase : DerivedDataset :=
  { pid := some "pid-1",
    owner := "slartibartfast",
    contactEmail := "slartibartfast@magrathea.org",
    creationTime := "2022-06-14T12:34:56",
    datasetName := none,
    sourceFolder := "UPLOAD",
    size := none,
    numberOfFiles := none,
    numberOfFilesArchived := none,
    type := "derived",
    ownerGroup := "group_o",
    accessGroups := ["group1", "group2"],
    inputDatasets := [],
    usedSoftware := ["PySciCat"],
    scientificMetadata := none }

/-- Two concrete local files (mirrors the test scenario with `events.nxs`
and `run.log`). -/
def fileEvents : File :=
  { source_path := "events.nxs", source_folder := none,
    local_path := some "events.nxs",
    model := some { path := "events.nxs", size := 9876, time := some "t1" } }

/-- Second concrete local file. -/
def fileLog : File :=
  { source_path := "run.log", source_folder := none,
    local_path := some "run.log",
    model := some { path := "run.log", size := 123, time := some "t2" } }

/-- A concrete datablock for the finalized stage. -/
def dbBase : OrigDatablock :=
  { id := none, size := 9999,
    dataFileList := [{ path := "events.nxs", size := 9876, time := some "t1" },
                     { path := "run.log", size := 123, time := some "t2" }],
    datasetId := "pid-1", ownerGroup := "group_o", accessGroups := ["group1"] }

/-- A finalized concrete stage (datablock present). -/
def stageBase : DatasetRENAMEME :=
  { model := mBase, files := [fileEvents, fileLog], datablock := some dbBase }

/-- A concrete filesystem holding the two local files. -/
def fsBase : FS := fun p =>
  if p = "events.nxs" then some { size := 9876, mtimeUtc := "2022-01-01T00:00:00+00:00" }
  else if p = "run.log" then some { size := 123, mtimeUtc := "2022-01-01T00:00:01+00:00" }
  else none

/-- The empty filesystem. -/
def fsEmpty : FS := fun _ => none

/-- A transfer-agent factory with a fixed remote base path. -/
def factoryBase : Option String → Uploader := fun _ =>
  { remote_upload_path := "/remote/upload" }

/-- A client whose record creation always fails with a communication error. -/
def clientFailCreate : ScicatClient :=
  { datasets_create := fun _ => .error (.ScicatCommError "create down"),
    datasets_origdatablock_create := fun _ => .ok () }

/-- A client whose record creation succeeds and whose datablock creation
always fails with a communication error. -/
def clientFailDatablock : ScicatClient :=
  { datasets_create := fun _ => .ok "server-pid",
    datasets_origdatablock_create := fun _ => .error (.ScicatCommError "dblock down") }

/-- A concrete datablock JSON object (mirrors the test fixture). -/
def blockJsonBase : DatablockJson :=
  { id := "fedcba98", size := 168456, ownerGroup := "group_o",
    accessGroups := ["group1"], datasetId := "pid-1",
    dataFileList := [{ path := "file1.nxs", size := 123456, time := some "2022-02-02T12:34:56Z" },
                     { path := "sub/file2.nxs", size := 45000, time := some "2022-02-02T12:54:32Z" }] }

/-! ## Claims -/

/-- C7: for every file record, `remote_access_path` is `None` iff
`source_folder` is `None`, and when `source_folder` is set it equals
`source_folder` path-joined with `source_path`. -/
theorem remote_access_path_spec (f : File) :
    (f.remote_access_path = none ↔ f.source_folder = none)
    ∧ ∀ sf, f.source_folder = some sf →
        f.remote_access_path = some (joinPath sf f.source_path) := by
  constructor
  · rcases h : f.source_folder with _ | sf
    · simp [File.remote_access_path, h]
    · simp [File.remote_access_path, h]
  · intro sf h
    simp [File.remote_access_path, h]

/-- Witness for C7 at a concrete file fetched from the catalog. -/
theorem remote_access_path_spec_witness :
    (File.from_scicat { path := "dir/image.jpg", size := 12345, time := some "t" }
        "remote/source/folder").remote_access_path
      = some "remote/source/folder/dir/image.jpg" := by
  have h := (remote_access_path_spec
    (File.from_scicat { path := "dir/image.jpg", size := 12345, time := some "t" }
      "remote/source/folder")).2 "remote/source/folder" rfl
  exact h.trans (by decide)

/-- C8: setting a MetadataMap entry then reading the key returns the
identical value; deleting the entry removes the key both from the map view
and from the backing metadata field; and a set on a null backing field
materializes it as exactly the one-entry mapping.  (Keys of the backing
Python dict are unique, hence the `Nodup` hypothesis.) -/
theorem scientific_metadata_roundtrip_spec
    (p : Option (List (String × MetaValue))) (k : String) (v : MetaValue)
    (hnd : ((smGetDictOrEmpty p).map Prod.fst).Nodup) :
    smGetItem (smSetItem p k v) k = .ok v
    ∧ smSetItem (none : Option (List (String × MetaValue))) k v = some [(k, v)]
    ∧ ∃ p2, smDelItem (smSetItem p k v) k = .ok p2
        ∧ smGetItem p2 k = .error (.KeyError k)
        ∧ dictHasKey (smGetDictOrEmpty p2) k = false := by
  rcases p with _ | d
  · refine ⟨?_, rfl, some [], ?_, ?_, rfl⟩
    · simp [smSetItem, smGetItem, smGetDictOrEmpty, dictGet]
    · simp [smSetItem, smDelItem, dictHasKey, dictDel]
    · simp [smGetItem, smGetDictOrEmpty, dictGet]
  · simp only [smGetDictOrEmpty] at hnd
    have hset : smSetItem (some d) k v = some (dictSet d k v) := rfl
    have hnd2 : ((dictSet d k v).map Prod.fst).Nodup := keys_dictSet_nodup hnd
    refine ⟨?_, rfl, some (dictDel (dictSet d k v) k), ?_, ?_, ?_⟩
    · simp [hset, smGetItem, smGetDictOrEmpty, dictGet_dictSet_self]
    · simp [hset, smDelItem, dictHasKey_eq_isSome, dictGet_dictSet_self]
    · simp [smGetItem, smGetDictOrEmpty, dictGet_dictDel_self hnd2]
    · simp [smGetDictOrEmpty, dictHasKey_eq_isSome, dictGet_dictDel_self hnd2]

/-- Witness for C8 at a concrete backing field and entry. -/
theorem scientific_metadata_roundtrip_spec_witness :
    smGetItem (smSetItem (some [("a", { value := "3", unit := "m" })]) "b"
        { value := "-1.2", unit := "s" }) "b" = .ok { value := "-1.2", unit := "s" }
    ∧ smSetItem (none : Option (List (String × MetaValue))) "b"
        { value := "-1.2", unit := "s" } = some [("b", { value := "-1.2", unit := "s" })]
    ∧ ∃ p2, smDelItem (smSetItem (some [("a", { value := "3", unit := "m" })]) "b"
          { value := "-1.2", unit := "s" }) "b" = .ok p2
        ∧ smGetItem p2 "b" = .error (.KeyError "b")
        ∧ dictHasKey (smGetDictOrEmpty p2) "b" = false :=
  scientific_metadata_roundtrip_spec (some [("a", { value := "3", unit := "m" })]) "b"
    { value := "-1.2", unit := "s" } (by decide)

/-- C5: fetching a dataset fails with the unsupported-shape error
(`NotImplementedError`) whenever the catalog reports more than one original
datablock for the id. -/
theorem from_scicat_multiple_datablocks_spec (model : DerivedDataset) (pid : String)
    (blocks : List DatablockJson) (h : 2 ≤ blocks.length) :
    DatasetRENAMEME.from_scicat model pid blocks
      = .error (.NotImplementedError (origDatablockCountMsg blocks.length pid)) := by
  match blocks with
  | [] => simp at h
  | [b] => simp at h
  | b1 :: b2 :: rest => rfl

/-- Witness for C5: fetching with exactly two datablocks fails. -/
theorem from_scicat_multiple_datablocks_spec_witness :
    DatasetRENAMEME.from_scicat mBase "pid-1" [blockJsonBase, blockJsonBase]
      = .error (.NotImplementedError (origDatablockCountMsg 2 "pid-1")) :=
  from_scicat_multiple_datablocks_spec mBase "pid-1" [blockJsonBase, blockJsonBase]
    (by decide)

/-- Every successful `with_model_from_local_file` result carries a model. -/
lemma with_model_ok_model_isSome {fs : FS} {x y : File}
    (h : File.with_model_from_local_file fs x = .ok y) : y.model.isSome = true := by
  unfold File.with_model_from_local_file at h
  split at h
  · cases h
  · split at h
    · cases h
    · simp only [Except.ok.injEq] at h
      subst h
      rfl

/-- C3: for a stage whose files all have a computable local size,
finalize-for-upload (`prepare_as_new`) succeeds with a record whose size is
the sum of the per-file metadata sizes and whose file count is the number of
files, and a manifest listing the per-file metadata in file-list order with
that total size, the new dataset id, and the record's owner-group and
access-group fields. -/
theorem prepare_as_new_totals_spec (s : DatasetRENAMEME) (fs : FS) (uuid : String)
    (h : ∀ f ∈ s.files, (f.local_path.bind fs).isSome = true) :
    ∃ d', s.prepare_as_new fs uuid = .ok d'
      ∧ d'.model.size = some (((d'.files.filterMap File.model).map DataFile.size).sum)
      ∧ d'.model.numberOfFiles = some d'.files.length
      ∧ d'.files.length = s.files.length
      ∧ (∀ f ∈ d'.files, f.model.isSome = true)
      ∧ d'.model.pid = some uuid
      ∧ ∃ db, d'.datablock = some db
          ∧ db.dataFileList = d'.files.filterMap File.model
          ∧ db.size = (db.dataFileList.map DataFile.size).sum
          ∧ db.datasetId = uuid
          ∧ db.ownerGroup = s.model.ownerGroup
          ∧ db.accessGroups = s.model.accessGroups := by
  have hall : ∀ x ∈ s.files, ∃ y, File.with_model_from_local_file fs x = .ok y := by
    intro x hx
    obtain ⟨y, hy, _⟩ := with_model_ok (h x hx)
    exact ⟨y, hy⟩
  obtain ⟨l2, hl2, hlen, hmem⟩ := exceptMap_ok_of hall
  have hp : ∃ d', s.prepare_as_new fs uuid = .ok d' := by
    unfold DatasetRENAMEME.prepare_as_new
    rw [hl2]
    exact ⟨_, rfl⟩
  obtain ⟨d', hp⟩ := hp
  obtain ⟨hfiles, hmodel, hdb⟩ := prepare_as_new_ok_inv hp
  have hfe : d'.files = l2 := by
    rw [hfiles] at hl2
    injection hl2
  subst hfe
  refine ⟨d', hp, ?_, ?_, hlen, ?_, ?_, ⟨_, hdb, ?_, ?_, ?_, ?_, ?_⟩⟩
  · rw [hmodel]
  · rw [hmodel]
  · intro f hf
    obtain ⟨x, _, hgx⟩ := hmem f hf
    exact with_model_ok_model_isSome hgx
  · rw [hmodel]
  · rfl
  · rfl
  · rfl
  · rfl
  · rfl

/-- Witness for C3 at a concrete two-file stage. -/
theorem prepare_as_new_totals_spec_witness :
    ∃ d', DatasetRENAMEME.prepare_as_new
        { model := mBase, files := [fileEvents, fileLog], datablock := none }
        fsBase "new-id" = .ok d'
      ∧ d'.model.size = some (((d'.files.filterMap File.model).map DataFile.size).sum)
      ∧ d'.model.numberOfFiles = some d'.files.length
      ∧ d'.files.length =
          ({ model := mBase, files := [fileEvents, fileLog],
             datablock := none } : DatasetRENAMEME).files.length
      ∧ (∀ f ∈ d'.files, f.model.isSome = true)
      ∧ d'.model.pid = some "new-id"
      ∧ ∃ db, d'.datablock = some db
          ∧ db.dataFileList = d'.files.filterMap File.model
          ∧ db.size = (db.dataFileList.map DataFile.size).sum
          ∧ db.datasetId = "new-id"
          ∧ db.ownerGroup = mBase.ownerGroup
          ∧ db.accessGroups = mBase.accessGroups :=
  prepare_as_new_totals_spec
    { model := mBase, files := [fileEvents, fileLog], datablock := none }
    fsBase "new-id" (by decide)

/-- C4 (amended): the helper `_ensure_source_folder` resolves a single
storage location exactly as described — an explicit target folder overrides
every file's source folder and is returned; two or more distinct non-null
source folders fail with the ambiguous-location `RuntimeError`; zero fail
with the undetermined-location `RuntimeError`; exactly one resolves to that
value — but finalize-for-upload (`prepare_as_new`) never invokes it: a
successful `prepare_as_new` always sets the record's storage location to the
placeholder string. -/
theorem ensure_source_folder_resolution_spec :
    (∀ (files : List File) (tf : String),
        ensure_source_folder files (some tf)
          = .ok (files.map (fun f => { f with source_folder := some tf }), tf))
    ∧ (∀ files : List File, 2 ≤ ((files.filterMap File.source_folder).dedup).length →
        ensure_source_folder files none = .error (.RuntimeError ambiguousSourceFolderMsg))
    ∧ (∀ files : List File, (files.filterMap File.source_folder).dedup = [] →
        ensure_source_folder files none = .error (.RuntimeError undeterminedSourceFolderMsg))
    ∧ (∀ (files : List File) (v : String),
        (files.filterMap File.source_folder).dedup = [v] →
        ensure_source_folder files none = .ok (files, v))
    ∧ (∀ (s : DatasetRENAMEME) (fs : FS) (uuid : String) (d' : DatasetRENAMEME),
        s.prepare_as_new fs uuid = .ok d' → d'.model.sourceFolder = "<PLACEHOLDER>") := by
  refine ⟨fun files tf => rfl, ?_, ?_, ?_, ?_⟩
  · intro files h
    simp [ensure_source_folder, h]
  · intro files h
    simp [ensure_source_folder, h]
  · intro files v h
    simp [ensure_source_folder, h]
  · intro s fs uuid d' h
    obtain ⟨_, hmodel, _⟩ := prepare_as_new_ok_inv h
    rw [hmodel]

/-- Witness for C4 (amended) at concrete file lists and a concrete stage. -/
theorem ensure_source_folder_resolution_spec_witness :
    ensure_source_folder [fileEvents] (some "/t")
      = .ok ([{ fileEvents with source_folder := some "/t" }], "/t")
    ∧ ensure_source_folder
        [{ fileEvents with source_folder := some "/a" },
         { fileLog with source_folder := some "/b" }] none
      = .error (.RuntimeError ambiguousSourceFolderMsg)
    ∧ ensure_source_folder [fileEvents] none
      = .error (.RuntimeError undeterminedSourceFolderMsg)
    ∧ ensure_source_folder [{ fileEvents with source_folder := some "/a" }] none
      = .ok ([{ fileEvents with source_folder := some "/a" }], "/a")
    ∧ ∀ d', DatasetRENAMEME.prepare_as_new
          { model := mBase, files := [fileEvents], datablock := none } fsBase "new-id"
          = .ok d' → d'.model.sourceFolder = "<PLACEHOLDER>" :=
  ⟨ensure_source_folder_resolution_spec.1 [fileEvents] "/t",
   ensure_source_folder_resolution_spec.2.1
     [{ fileEvents with source_folder := some "/a" },
      { fileLog with source_folder := some "/b" }] (by decide),
   ensure_source_folder_resolution_spec.2.2.1 [fileEvents] (by decide),
   ensure_source_folder_resolution_spec.2.2.2.1
     [{ fileEvents with source_folder := some "/a" }] "/a" (by decide),
   fun d' h => ensure_source_folder_resolution_spec.2.2.2.2
     { model := mBase, files := [fileEvents], datablock := none } fsBase "new-id" d' h⟩

/-- The finalized record's storage location, of a successful finalize. -/
def modelSourceFolder : DatasetRENAMEME → String := fun d => d.model.sourceFolder

/-- Counterexample for C4 as stated: a stage whose files have exactly one
distinct non-null `source_folder` value (`/a`), yet finalize-for-upload does
not adopt it — the finalized record's storage location is the placeholder,
not `/a`. -/
theorem prepare_ignores_unique_source_folder :
    (((({ model := mBase,
          files := [{ fileEvents with source_folder := some "/a" }],
          datablock := none } : DatasetRENAMEME).files.filterMap
            File.source_folder).dedup) = ["/a"])
    ∧ (DatasetRENAMEME.prepare_as_new
          { model := mBase,
            files := [{ fileEvents with source_folder := some "/a" }],
            datablock := none } fsBase "new-id").map modelSourceFolder
        = .ok "<PLACEHOLDER>"
    ∧ ("<PLACEHOLDER>" : String) ≠ "/a" := by
  refine ⟨by decide, rfl, by decide⟩

/-- C6 (amended): computing file metadata from the local copy requires a
local path — `with_model_from_local_file` on a file without `local_path`
fails with the precondition error (`AssertionError`) — and
finalize-for-upload recomputes metadata from the local copy for every file,
so it fails whenever any file lacks a local copy, even if that file already
has metadata. -/
theorem with_model_requires_local_spec :
    (∀ (fs : FS) (f : File), f.local_path = none →
        f.with_model_from_local_file fs = .error .AssertionError)
    ∧ (∀ (s : DatasetRENAMEME) (fs : FS) (uuid : String),
        (∃ f ∈ s.files, f.local_path = none) →
        ∃ e, s.prepare_as_new fs uuid = .error e) := by
  constructor
  · intro fs f h
    unfold File.with_model_from_local_file
    rw [h]
  · intro s fs uuid ⟨f, hf, hl⟩
    have herr : ∃ e, File.with_model_from_local_file fs f = .error e :=
      ⟨.AssertionError, by unfold File.with_model_from_local_file; rw [hl]⟩
    obtain ⟨e, he⟩ := exceptMap_error_of ⟨f, hf, herr⟩
    refine ⟨e, ?_⟩
    unfold DatasetRENAMEME.prepare_as_new
    rw [he]

/-- Witness for C6 (amended) at a concrete metadata-only file and stage. -/
theorem with_model_requires_local_spec_witness :
    (File.from_scicat { path := "file1.nxs", size := 123456, time := some "t" }
        "/remote/source").with_model_from_local_file fsEmpty
      = .error .AssertionError
    ∧ ∃ e, DatasetRENAMEME.prepare_as_new
        { model := mBase,
          files := [File.from_scicat { path := "file1.nxs", size := 123456, time := some "t" }
            "/remote/source"],
          datablock := none } fsEmpty "new-id" = .error e :=
  ⟨with_model_requires_local_spec.1 fsEmpty
      (File.from_scicat { path := "file1.nxs", size := 123456, time := some "t" }
        "/remote/source") rfl,
   with_model_requires_local_spec.2
     { model := mBase,
       files := [File.from_scicat { path := "file1.nxs", size := 123456, time := some "t" }
         "/remote/source"],
       datablock := none } fsEmpty "new-id"
     ⟨File.from_scicat { path := "file1.nxs", size := 123456, time := some "t" }
        "/remote/source", by decide, rfl⟩⟩

/-- Counterexample for C6 as stated: a stage whose single file has metadata
(so, per the claim, finalize-for-upload should leave it untouched and
succeed), yet `prepare_as_new` fails with the precondition error because the
file has no local copy. -/
theorem prepare_fails_despite_metadata :
    (File.from_scicat { path := "file1.nxs", size := 123456, time := some "t" }
        "/remote/source").model.isSome = true
    ∧ DatasetRENAMEME.prepare_as_new
        { model := mBase,
          files := [File.from_scicat
            { path := "file1.nxs", size := 123456, time := some "t" } "/remote/source"],
          datablock := none } fsEmpty "new-id" = .error .AssertionError :=
  ⟨rfl, rfl⟩

/-- C9: the derived record fields `size` and `numberOfFiles` are not
settable (or readable) through the stage's wrapped attribute access — both
direct reads and direct writes raise `AttributeError` — and on every
successful finalize-for-upload their values are derived from the file list
(total size and file count). -/
theorem derived_fields_not_settable_spec :
    (∀ (d : DatasetRENAMEME) (v : AttrValue),
        d.setAttr "size" v = .error (.AttributeError cantSetAttrMsg)
        ∧ d.setAttr "numberOfFiles" v = .error (.AttributeError cantSetAttrMsg)
        ∧ d.getAttr "size" = .error (.AttributeError (raisingAccessorMsg "size"))
        ∧ d.getAttr "numberOfFiles"
            = .error (.AttributeError (raisingAccessorMsg "numberOfFiles")))
    ∧ (∀ (s : DatasetRENAMEME) (fs : FS) (uuid : String) (d' : DatasetRENAMEME),
        s.prepare_as_new fs uuid = .ok d' →
        d'.model.size = some (((d'.files.filterMap File.model).map DataFile.size).sum)
        ∧ d'.model.numberOfFiles = some d'.files.length) := by
  constructor
  · intro d v
    exact ⟨rfl, rfl, rfl, rfl⟩
  · intro s fs uuid d' h
    obtain ⟨_, hmodel, _⟩ := prepare_as_new_ok_inv h
    constructor
    · rw [hmodel]
    · rw [hmodel]

/-- Witness for C9 at a concrete stage and a concrete finalize run. -/
theorem derived_fields_not_settable_spec_witness :
    (stageBase.setAttr "size" (.vOptNat (some 1))
        = .error (.AttributeError cantSetAttrMsg)
      ∧ stageBase.setAttr "numberOfFiles" (.vOptNat (some 1))
          = .error (.AttributeError cantSetAttrMsg)
      ∧ stageBase.getAttr "size" = .error (.AttributeError (raisingAccessorMsg "size"))
      ∧ stageBase.getAttr "numberOfFiles"
          = .error (.AttributeError (raisingAccessorMsg "numberOfFiles")))
    ∧ ∀ d', DatasetRENAMEME.prepare_as_new
          { model := mBase, files := [fileEvents, fileLog], datablock := none }
          fsBase "new-id" = .ok d' →
        d'.model.size = some (((d'.files.filterMap File.model).map DataFile.size).sum)
        ∧ d'.model.numberOfFiles = some d'.files.length :=
  ⟨derived_fields_not_settable_spec.1 stageBase (.vOptNat (some 1)),
   fun d' h => derived_fields_not_settable_spec.2
     { model := mBase, files := [fileEvents, fileLog], datablock := none }
     fsBase "new-id" d' h⟩

/-- C1: uploading a finalized stage (datablock present) when catalog-record
creation fails with a communication error re-raises that exact error, and
the event trace is the puts (one per file, with that file's local path and
remote access path), the record-creation call, then exactly one
`revert_put` per placed file with the same local path and remote access
path. -/
theorem upload_rollback_spec (s : DatasetRENAMEME) (db : OrigDatablock) (fs : FS)
    (uuid : String) (client : ScicatClient) (factory : Option String → Uploader)
    (emsg : String)
    (hdb : s.datablock = some db)
    (hcreate : ∀ m, client.datasets_create m = .error (.ScicatCommError emsg)) :
    (s.upload_new_dataset_now fs uuid client factory).result
        = .error (.ScicatCommError emsg)
    ∧ (s.upload_new_dataset_now fs uuid client factory).events
        = ((s.files.map fun f =>
              { f with
                source_folder := some ((factory s.model.pid).remote_upload_path) }).map
            fun f => UploadEvent.put f.local_path f.remote_access_path)
          ++ [.datasets_create_call]
          ++ ((s.files.map fun f =>
              { f with
                source_folder := some ((factory s.model.pid).remote_upload_path) }).map
            fun f => UploadEvent.revert_put f.local_path f.remote_access_path) := by
  unfold DatasetRENAMEME.upload_new_dataset_now
  rw [hdb]
  simp [hcreate]

/-- Witness for C1: concrete two-file upload with a failing record creation;
both files are reverted in order and the original error is re-raised. -/
theorem upload_rollback_spec_witness :
    (stageBase.upload_new_dataset_now fsBase "new-id" clientFailCreate factoryBase).result
        = .error (.ScicatCommError "create down")
    ∧ (stageBase.upload_new_dataset_now fsBase "new-id" clientFailCreate factoryBase).events
        = [UploadEvent.put (some "events.nxs") (some "/remote/upload/events.nxs"),
           UploadEvent.put (some "run.log") (some "/remote/upload/run.log"),
           UploadEvent.datasets_create_call,
           UploadEvent.revert_put (some "events.nxs") (some "/remote/upload/events.nxs"),
           UploadEvent.revert_put (some "run.log") (some "/remote/upload/run.log")] := by
  have h := upload_rollback_spec stageBase dbBase fsBase "new-id" clientFailCreate
    factoryBase "create down" rfl (fun m => rfl)
  exact ⟨h.1, h.2.trans (by decide)⟩

/-- C2: when the catalog record is created but datablock creation fails with
a communication error, no file is reverted, nothing is deleted, and a
`RuntimeError` chaining the original error is raised, whose message starts
with the dataset id context and states that the uploaded dataset and files
are not linked. -/
theorem upload_manifest_failure_spec (s : DatasetRENAMEME) (db : OrigDatablock)
    (fs : FS) (uuid : String) (client : ScicatClient)
    (factory : Option String → Uploader) (newPid emsg : String)
    (hdb : s.datablock = some db)
    (hcreate : ∀ m, client.datasets_create m = .ok newPid)
    (hdblock : ∀ b, client.datasets_origdatablock_create b
      = .error (.ScicatCommError emsg)) :
    (s.upload_new_dataset_now fs uuid client factory).result
        = .error (.RuntimeErrorFrom (manifestFailMsg s.model.pid emsg)
            (.ScicatCommError emsg))
    ∧ (s.upload_new_dataset_now fs uuid client factory).events
        = ((s.files.map fun f =>
              { f with
                source_folder := some ((factory s.model.pid).remote_upload_path) }).map
            fun f => UploadEvent.put f.local_path f.remote_access_path)
          ++ [.datasets_create_call, .datasets_origdatablock_create_call]
    ∧ (∀ e ∈ (s.upload_new_dataset_now fs uuid client factory).events,
        (∀ l r, e ≠ UploadEvent.revert_put l r)
        ∧ (∀ q, e ≠ UploadEvent.datasets_delete_call q))
    ∧ ∃ t, manifestFailMsg s.model.pid emsg
        = "Failed to upload original datablocks for SciCat dataset "
          ++ (optStr s.model.pid ++ t) := by
  have h12 : (s.upload_new_dataset_now fs uuid client factory).result
        = .error (.RuntimeErrorFrom (manifestFailMsg s.model.pid emsg)
            (.ScicatCommError emsg))
      ∧ (s.upload_new_dataset_now fs uuid client factory).events
        = ((s.files.map fun f =>
              { f with
                source_folder := some ((factory s.model.pid).remote_upload_path) }).map
            fun f => UploadEvent.put f.local_path f.remote_access_path)
          ++ [.datasets_create_call, .datasets_origdatablock_create_call] := by
    unfold DatasetRENAMEME.upload_new_dataset_now
    simp [hdb, hcreate, hdblock]
  refine ⟨h12.1, h12.2, ?_, ?_⟩
  · intro e he
    rw [h12.2] at he
    simp only [List.mem_append, List.mem_map, List.mem_cons,
      List.not_mem_nil, or_false] at he
    rcases he with ⟨f, _, rfl⟩ | rfl | rfl
    · exact ⟨fun l r => by simp, fun q => by simp⟩
    · exact ⟨fun l r => by simp, fun q => by simp⟩
    · exact ⟨fun l r => by simp, fun q => by simp⟩
  · refine ⟨":\n" ++ emsg
      ++ ("\nThe dataset and data files were successfully uploaded "
          ++ "but are not linked with each other. Please fix the dataset manually!"), ?_⟩
    simp [manifestFailMsg, String.append_assoc]

/-- Witness for C2: concrete upload where record creation succeeds and
datablock creation fails; nothing is reverted and the chained error carries
the dataset id. -/
theorem upload_manifest_failure_spec_witness :
    (stageBase.upload_new_dataset_now fsBase "new-id" clientFailDatablock
        factoryBase).result
      = .error (.RuntimeErrorFrom (manifestFailMsg (some "pid-1") "dblock down")
          (.ScicatCommError "dblock down"))
    ∧ (stageBase.upload_new_dataset_now fsBase "new-id" clientFailDatablock
        factoryBase).events
      = [UploadEvent.put (some "events.nxs") (some "/remote/upload/events.nxs"),
         UploadEvent.put (some "run.log") (some "/remote/upload/run.log"),
         UploadEvent.datasets_create_call,
         UploadEvent.datasets_origdatablock_create_call]
    ∧ (∀ e ∈ (stageBase.upload_new_dataset_now fsBase "new-id" clientFailDatablock
          factoryBase).events,
        (∀ l r, e ≠ UploadEvent.revert_put l r)
        ∧ (∀ q, e ≠ UploadEvent.datasets_delete_call q))
    ∧ ∃ t, manifestFailMsg (some "pid-1") "dblock down"
        = "Failed to upload original datablocks for SciCat dataset "
          ++ (optStr (some "pid-1") ++ t) := by
  have h := upload_manifest_failure_spec stageBase dbBase fsBase "new-id"
    clientFailDatablock factoryBase "server-pid" "dblock down" rfl
    (fun m => rfl) (fun b => rfl)
  exact ⟨h.1, (h.2.1).trans (by decide), h.2.2.1, h.2.2.2⟩

/-- Recognizer for rollback events in an upload trace. -/
def isRevertEvent : UploadEvent → Bool
  | UploadEvent.revert_put _ _ => true
  | _ => false

/-- Mapping a non-rollback event constructor yields nothing under the
rollback recognizer. -/
lemma put_filter_nil (l : List File) (g : File → UploadEvent)
    (hg : ∀ x, isRevertEvent (g x) = false) :
    (l.map g).filter isRevertEvent = [] := by
  induction l with
  | nil => rfl
  | cons x xs ih => simp [List.filter_cons, hg x, ih]

/-- Mapping a rollback event constructor keeps one event per file. -/
lemma revert_filter_length (l : List File) (g : File → UploadEvent)
    (hg : ∀ x, isRevertEvent (g x) = true) :
    ((l.map g).filter isRevertEvent).length = l.length := by
  induction l with
  | nil => rfl
  | cons x xs ih => simp [List.filter_cons, hg x, ih]

/-- C10: upload points the record's storage location and every file's
source folder at the transfer agent's remote base path before the catalog
write, and a failed record creation rolls back the file placements (one
revert per file) without restoring those fields: after the failure they
still hold the remote base path. -/
theorem upload_failure_keeps_remote_folders_spec (s : DatasetRENAMEME)
    (db : OrigDatablock) (fs : FS) (uuid : String) (client : ScicatClient)
    (factory : Option String → Uploader) (emsg : String)
    (hdb : s.datablock = some db)
    (hcreate : ∀ m, client.datasets_create m = .error (.ScicatCommError emsg)) :
    (s.upload_new_dataset_now fs uuid client factory).dset.model.sourceFolder
        = (factory s.model.pid).remote_upload_path
    ∧ ((s.upload_new_dataset_now fs uuid client factory).dset.files
        = (s.files.map fun f =>
            { f with
              source_folder := some ((factory s.model.pid).remote_upload_path) }))
    ∧ (∀ f ∈ (s.upload_new_dataset_now fs uuid client factory).dset.files,
        f.source_folder = some ((factory s.model.pid).remote_upload_path))
    ∧ (s.upload_new_dataset_now fs uuid client factory).result
        = .error (.ScicatCommError emsg)
    ∧ ((s.upload_new_dataset_now fs uuid client factory).events.filter
          isRevertEvent).length = s.files.length := by
  have hd : (s.upload_new_dataset_now fs uuid client factory).dset
      = { model := { s.model with
            sourceFolder := (factory s.model.pid).remote_upload_path },
          files := s.files.map fun f =>
            { f with
              source_folder := some ((factory s.model.pid).remote_upload_path) },
          datablock := some db } := by
    unfold DatasetRENAMEME.upload_new_dataset_now
    simp [hdb, hcreate]
  have hr : (s.upload_new_dataset_now fs uuid client factory).result
      = .error (.ScicatCommError emsg) := by
    unfold DatasetRENAMEME.upload_new_dataset_now
    simp [hdb, hcreate]
  have hev : (s.upload_new_dataset_now fs uuid client factory).events
      = ((s.files.map fun f =>
            { f with
              source_folder := some ((factory s.model.pid).remote_upload_path) }).map
          fun f => UploadEvent.put f.local_path f.remote_access_path)
        ++ [.datasets_create_call]
        ++ ((s.files.map fun f =>
            { f with
              source_folder := some ((factory s.model.pid).remote_upload_path) }).map
          fun f => UploadEvent.revert_put f.local_path f.remote_access_path) := by
    unfold DatasetRENAMEME.upload_new_dataset_now
    simp [hdb, hcreate]
  refine ⟨by rw [hd], by rw [hd], ?_, hr, ?_⟩
  · rw [hd]
    intro f hf
    simp only [List.mem_map] at hf
    obtain ⟨x, _, rfl⟩ := hf
    rfl
  · rw [hev]
    have h1 := put_filter_nil s.files
      ((fun f => UploadEvent.put f.local_path f.remote_access_path) ∘ fun f =>
        { f with source_folder := some ((factory s.model.pid).remote_upload_path) })
      (fun x => rfl)
    have h2 := revert_filter_length s.files
      ((fun f => UploadEvent.revert_put f.local_path f.remote_access_path) ∘ fun f =>
        { f with source_folder := some ((factory s.model.pid).remote_upload_path) })
      (fun x => rfl)
    simp [List.map_map, List.filter_append, isRevertEvent, h1, h2]

/-- Witness for C10 at the concrete failing upload. -/
theorem upload_failure_keeps_remote_folders_spec_witness :
    (stageBase.upload_new_dataset_now fsBase "new-id" clientFailCreate
        factoryBase).dset.model.sourceFolder = "/remote/upload"
    ∧ (stageBase.upload_new_dataset_now fsBase "new-id" clientFailCreate
        factoryBase).dset.files
      = [{ fileEvents with source_folder := some "/remote/upload" },
         { fileLog with source_folder := some "/remote/upload" }]
    ∧ (∀ f ∈ (stageBase.upload_new_dataset_now fsBase "new-id" clientFailCreate
          factoryBase).dset.files, f.source_folder = some "/remote/upload")
    ∧ (stageBase.upload_new_dataset_now fsBase "new-id" clientFailCreate
        factoryBase).result = .error (.ScicatCommError "create down")
    ∧ ((stageBase.upload_new_dataset_now fsBase "new-id" clientFailCreate
        factoryBase).events.filter isRevertEvent).length = 2 := by
  have h := upload_failure_keeps_remote_folders_spec stageBase dbBase fsBase "new-id"
    clientFailCreate factoryBase "create down" rfl (fun m => rfl)
  exact ⟨h.1, (h.2.1).trans (by decide), h.2.2.1, h.2.2.2.1, h.2.2.2.2⟩
